import Mathlib

/-!
Verification development for the JNI bridge of this repository.

The definitions below are a shallow embedding of the C entry points in
`src/demo/llama_jni_new.c` (whose generation loop and lifecycle code is
line-for-line identical to `src/demo/llama_jni.c`, except that the latter
hardwires `max_gen_tokens = DEFAULT_MAX_TOKENS` instead of sanitizing a
`maxTokens` argument).  Calls into the external inference library
(`llama_sampler_sample`, `llama_token_to_piece`, `llama_decode`,
`llama_tokenize`, ...) are modelled by an oracle structure `Engine`; the
JNI environment's fallible services (`GetStringUTFChars`, `malloc`) are
oracle booleans.  Every call the bridge makes into the engine is recorded
in an explicit trace so that claims about "which engine calls happen" can
be stated and settled.
-/

/-- MAX_PROMPT_LENGTH from `llama_jni_new.c` line 9 (and `llama_jni.c` line 8). -/
def MAX_PROMPT_LENGTH : Nat := 4096

/-- MAX_RESPONSE_LENGTH from `llama_jni_new.c` line 10 (and `llama_jni.c` line 9). -/
def MAX_RESPONSE_LENGTH : Nat := 8192

/-- DEFAULT_MAX_TOKENS from `llama_jni_new.c` line 11 (and `llama_jni.c` line 10). -/
def DEFAULT_MAX_TOKENS : Nat := 512

/-- Context window size: `ctx_params.n_ctx = 2048` set in `loadModel`
(`llama_jni_new.c` line 54); `llama_n_ctx` returns it in `generateText`. -/
def n_ctx : Nat := 2048

/-- Java exception classes thrown across the JNI boundary by the bridge. -/
inductive JavaError
  | illegalArgument (msg : String)
  | illegalState (msg : String)
  | outOfMemory (msg : String)
  | runtimeException (msg : String)
deriving DecidableEq

/-- The `llama_model_context` struct (`llama_jni_new.c` lines 14-18): a session
holding the model, context and sampler pointers.  Each Bool records whether the
corresponding pointer is non-NULL. -/
structure Session where
  model : Bool
  ctx : Bool
  sampler : Bool
deriving DecidableEq

/-- Oracle for the external inference library and the JNI environment, as seen
by one `generateText` call.  `sample i` / `decodeTokOk i` give the outcome of
the sampler / per-token decode call made on loop iteration `i`; `piece t` is
the full detokenized surface form (bytes) of token `t`; `tokenizeRes p` is the
value `llama_tokenize` returns for prompt bytes `p`; `eos` is the value of
`llama_token_eos`; `utfOk`, `allocOk`, `primeDecodeOk` are the outcomes of
`GetStringUTFChars`, `malloc(MAX_RESPONSE_LENGTH)` and the prompt-batch
`llama_decode`. -/
structure Engine where
  utfOk : Bool
  tokenizeRes : List Nat → Int
  primeDecodeOk : Bool
  allocOk : Bool
  sample : Nat → Int
  eos : Int
  piece : Int → List Nat
  decodeTokOk : Nat → Bool

/-- Engine calls the bridge can make, recorded in order. -/
inductive EngineCall
  | memoryClearEv
  | tokenizeEv
  | decodeEv
  | sampleEv
  | acceptEv (t : Int)
  | toPieceEv (t : Int)
deriving DecidableEq

/-- Number of `llama_decode` calls recorded in a trace. -/
def countDecode : List EngineCall → Nat
  | [] => 0
  | EngineCall.decodeEv :: cs => countDecode cs + 1
  | _ :: cs => countDecode cs

/-- Number of `llama_sampler_accept` calls on token `t` recorded in a trace. -/
def countAccept (t : Int) : List EngineCall → Nat
  | [] => 0
  | EngineCall.acceptEv u :: cs => (if u = t then 1 else 0) + countAccept t cs
  | _ :: cs => countAccept t cs

/-- Result of `llama_token_to_piece(vocab, t, token_str, 256, ...)` with the
256-byte stack buffer `token_str` of the loop body: per the library contract it
returns the piece length when the piece fits the buffer and a negative value
otherwise (in which case the bridge copies nothing). -/
def tokenToPiece (e : Engine) (t : Int) : Int × List Nat :=
  if (e.piece t).length ≤ 256 then (((e.piece t).length : Int), e.piece t)
  else (-((e.piece t).length : Int), [])

/-- The response-buffer update of one loop body (`llama_jni_new.c` lines
200-207): the piece of the token sampled on iteration `i` is appended iff
`token_len > 0 && response_pos + token_len < MAX_RESPONSE_LENGTH - 1`. -/
def appendPiece (e : Engine) (resp : List Nat) (i : Nat) : List Nat :=
  if 0 < (tokenToPiece e (e.sample i)).1 ∧
      (resp.length : Int) + (tokenToPiece e (e.sample i)).1 <
        (MAX_RESPONSE_LENGTH : Int) - 1 then
    resp ++ (tokenToPiece e (e.sample i)).2
  else resp

/-- Engine calls made by one full (non-eos) loop body, in source order:
sample, accept, token_to_piece, decode (`llama_jni_new.c` lines 190-213). -/
def stepTrace (e : Engine) (i : Nat) : List EngineCall :=
  [EngineCall.sampleEv, EngineCall.acceptEv (e.sample i),
   EngineCall.toPieceEv (e.sample i), EngineCall.decodeEv]

/-- Running state of the generation loop: the accumulated response bytes
(`response` / `response_pos`), the `generated_tokens` counter, and the trace
of engine calls made so far. -/
structure LoopState where
  response : List Nat
  generated : Nat
  trace : List EngineCall
deriving DecidableEq

/-- The generation loop of `generateText` (`llama_jni_new.c` lines 188-218,
identical to `llama_jni.c` lines 199-229).  `fuel` is the number of remaining
iterations (`max_gen_tokens - i`), so `fuel = 0` is exactly the `i <
max_gen_tokens` guard failing; the second guard `response_pos <
MAX_RESPONSE_LENGTH - 256` is checked on entry to each body.  A body samples a
token, stops before accepting if it is the end-of-sequence token, otherwise
accepts it, converts it to its piece, appends the piece if it fits, submits a
one-token decode batch, and continues only if that decode returned 0. -/
def genLoopAux (e : Engine) : Nat → Nat → LoopState → LoopState
  | 0, _, st => st
  | fuel+1, i, st =>
    if st.response.length < MAX_RESPONSE_LENGTH - 256 then
      if e.sample i = e.eos then
        { st with trace := st.trace ++ [EngineCall.sampleEv] }
      else
        if e.decodeTokOk i then
          genLoopAux e fuel (i+1)
            { response := appendPiece e st.response i
              generated := st.generated + 1
              trace := st.trace ++ stepTrace e i }
        else
          { response := appendPiece e st.response i
            generated := st.generated
            trace := st.trace ++ stepTrace e i }
    else st

/-- The generation loop run from the empty response buffer. -/
def genLoop (e : Engine) (maxGen : Nat) : LoopState :=
  genLoopAux e maxGen 0 ⟨[], 0, []⟩

/-- Sanitization of the `maxTokens` argument (`llama_jni_new.c` line 143):
`(maxTokens > 0 && maxTokens <= DEFAULT_MAX_TOKENS) ? maxTokens :
DEFAULT_MAX_TOKENS`. -/
def sanitizeMaxTokens (m : Int) : Int :=
  if 0 < m ∧ m ≤ (DEFAULT_MAX_TOKENS : Int) then m else (DEFAULT_MAX_TOKENS : Int)

deriving instance DecidableEq for Except

/-- Result of one `generateText` call: the value returned to Java (either a
thrown exception or the response bytes) together with the trace of engine
calls made during the call. -/
structure GenOutput where
  result : Except JavaError (List Nat)
  trace : List EngineCall
deriving DecidableEq

/-- Shallow embedding of `Java_com_livecoding_demo_LlamaJNI_generateText`
(`llama_jni_new.c` lines 106-228).  The guard order is the source order:
null handle, invalid session state, `GetStringUTFChars` failure, prompt length
bounds, `llama_memory_clear` + `llama_tokenize`, negative token count, token
count ≥ context window, prompt-batch decode failure, response-buffer
allocation failure, then the generation loop.  `llama_jni.c`'s variant of the
same function is this definition at `maxTokens = 512`. -/
def generateText (e : Engine) (modelHandle : Option Session) (prompt : List Nat)
    (maxTokens : Int) : GenOutput :=
  match modelHandle with
  | none => ⟨Except.error (JavaError.illegalArgument "Model not loaded"), []⟩
  | some s =>
    if s.model = false ∨ s.ctx = false ∨ s.sampler = false then
      ⟨Except.error (JavaError.illegalState "Invalid model state"), []⟩
    else if e.utfOk = false then
      ⟨Except.error (JavaError.outOfMemory "Failed to get prompt string"), []⟩
    else if prompt.length = 0 ∨ MAX_PROMPT_LENGTH < prompt.length then
      ⟨Except.error (JavaError.illegalArgument "Invalid prompt length"), []⟩
    else if e.tokenizeRes prompt < 0 then
      ⟨Except.error (JavaError.runtimeException "Failed to tokenize prompt"),
       [EngineCall.memoryClearEv, EngineCall.tokenizeEv]⟩
    else if (n_ctx : Int) ≤ e.tokenizeRes prompt then
      ⟨Except.error (JavaError.illegalArgument "Prompt too long for context"),
       [EngineCall.memoryClearEv, EngineCall.tokenizeEv]⟩
    else if e.primeDecodeOk = false then
      ⟨Except.error (JavaError.runtimeException "Failed to evaluate prompt"),
       [EngineCall.memoryClearEv, EngineCall.tokenizeEv, EngineCall.decodeEv]⟩
    else if e.allocOk = false then
      ⟨Except.error (JavaError.outOfMemory "Failed to allocate response buffer"),
       [EngineCall.memoryClearEv, EngineCall.tokenizeEv, EngineCall.decodeEv]⟩
    else
      let fin := genLoopAux e (sanitizeMaxTokens maxTokens).toNat 0
        ⟨[], 0, [EngineCall.memoryClearEv, EngineCall.tokenizeEv, EngineCall.decodeEv]⟩
      ⟨Except.ok fin.response, fin.trace⟩

/-- Environment oracle for one `loadModel` call: whether the path argument is
null and whether each fallible construction step succeeds. -/
structure LoadEnv where
  pathNull : Bool
  utfOk : Bool
  modelOk : Bool
  ctxOk : Bool
  samplerOk : Bool
  mallocOk : Bool
deriving DecidableEq

/-- Resource acquisition/release events performed by `loadModel` and
`unloadModel`. -/
inductive ResEvent
  | backendInit
  | backendFree
  | modelLoad
  | modelFree
  | ctxNew
  | ctxFree
  | samplerNew
  | samplerFree
deriving DecidableEq

/-- Number of occurrences of one resource event in a trace. -/
def countRes (r : ResEvent) : List ResEvent → Nat
  | [] => 0
  | x :: xs => (if x = r then 1 else 0) + countRes r xs

/-- A trace in which every acquired resource has been released: acquisition
and release counts agree for the backend, the model, the context and the
sampler. -/
def balancedTrace (tr : List ResEvent) : Prop :=
  countRes ResEvent.backendInit tr = countRes ResEvent.backendFree tr ∧
  countRes ResEvent.modelLoad tr = countRes ResEvent.modelFree tr ∧
  countRes ResEvent.ctxNew tr = countRes ResEvent.ctxFree tr ∧
  countRes ResEvent.samplerNew tr = countRes ResEvent.samplerFree tr

instance (tr : List ResEvent) : Decidable (balancedTrace tr) := by
  unfold balancedTrace; infer_instance

/-- Shallow embedding of `Java_com_livecoding_demo_LlamaJNI_loadModel`
(`llama_jni_new.c` lines 20-104, identical in `llama_jni.c` lines 20-103).
Each failure branch performs exactly the cleanup calls of the source before
reporting its error: model-load failure frees the backend; context failure
frees model then backend; sampler failure frees context, model, backend;
allocation failure frees sampler, context, model, backend.  On success the
returned session has all three sub-resources populated. -/
def loadModel (env : LoadEnv) : Except JavaError Session × List ResEvent :=
  if env.pathNull then
    (Except.error (JavaError.illegalArgument "Model path cannot be null"), [])
  else if env.utfOk = false then
    (Except.error (JavaError.outOfMemory "Failed to get string from JNI"), [])
  else if env.modelOk = false then
    (Except.error (JavaError.runtimeException "Failed to load model"),
     [ResEvent.backendInit, ResEvent.backendFree])
  else if env.ctxOk = false then
    (Except.error (JavaError.runtimeException "Failed to create context"),
     [ResEvent.backendInit, ResEvent.modelLoad, ResEvent.modelFree, ResEvent.backendFree])
  else if env.samplerOk = false then
    (Except.error (JavaError.runtimeException "Failed to create sampler"),
     [ResEvent.backendInit, ResEvent.modelLoad, ResEvent.ctxNew,
      ResEvent.ctxFree, ResEvent.modelFree, ResEvent.backendFree])
  else if env.mallocOk = false then
    (Except.error (JavaError.outOfMemory "Failed to allocate memory for model context"),
     [ResEvent.backendInit, ResEvent.modelLoad, ResEvent.ctxNew, ResEvent.samplerNew,
      ResEvent.samplerFree, ResEvent.ctxFree, ResEvent.modelFree, ResEvent.backendFree])
  else
    (Except.ok ⟨true, true, true⟩,
     [ResEvent.backendInit, ResEvent.modelLoad, ResEvent.ctxNew, ResEvent.samplerNew])

/-- The session `loadModel` returns on success: all three pointers populated
(`llama_jni_new.c` lines 99-101). -/
def freshSession : Session := ⟨true, true, true⟩

/-- Shallow embedding of `Java_com_livecoding_demo_LlamaJNI_unloadModel`
(`llama_jni_new.c` lines 230-251, identical in `llama_jni.c` lines 242-263):
a zero handle returns immediately; otherwise the sampler, context and model
are each independently null-checked and freed in that order, then the backend
is shut down. -/
def unloadModel : Option Session → List ResEvent
  | none => []
  | some s =>
    (if s.sampler then [ResEvent.samplerFree] else []) ++
    (if s.ctx then [ResEvent.ctxFree] else []) ++
    (if s.model then [ResEvent.modelFree] else []) ++
    [ResEvent.backendFree]

/-- Release under the caller-side handle convention: after `unloadModel` the
caller's handle denotes no session (the source comment at the zero-handle
early return reads "Already unloaded or never loaded", i.e. a released handle
is passed back as zero). -/
def releaseHandle (h : Option Session) : Option Session × List ResEvent :=
  (none, unloadModel h)

/-- Checker for the `IllegalStateException` branch of `generateText`. -/
def isIllegalState : Except JavaError (List Nat) → Bool
  | Except.error (JavaError.illegalState _) => true
  | _ => false

/-- An engine whose decodes all succeed (same sampler, pieces and tokenizer as
`e`): reference run for stating what a failure-free generation produces. -/
def decodeAllOk (e : Engine) : Engine := { e with decodeTokOk := fun _ => true }

/-! ### Helper lemmas about the loop -/

theorem tokenToPiece_snd_len (e : Engine) (t : Int) :
    ((tokenToPiece e t).2).length = ((tokenToPiece e t).1).toNat := by
  unfold tokenToPiece
  split
  · simp
  · simp only [List.length_nil]
    omega

theorem tokenToPiece_snd_le (e : Engine) (t : Int) :
    ((tokenToPiece e t).2).length ≤ 256 := by
  unfold tokenToPiece
  split
  · simpa
  · simp

theorem appendPiece_le (e : Engine) (resp : List Nat) (i : Nat)
    (h : resp.length ≤ MAX_RESPONSE_LENGTH - 2) :
    (appendPiece e resp i).length ≤ MAX_RESPONSE_LENGTH - 2 := by
  unfold appendPiece
  split
  case isTrue hg =>
    have hlen := tokenToPiece_snd_len e (e.sample i)
    simp only [List.length_append]
    unfold MAX_RESPONSE_LENGTH at *
    omega
  case isFalse => exact h

theorem genLoopAux_resp_le (e : Engine) (fuel : Nat) :
    ∀ i st, st.response.length ≤ MAX_RESPONSE_LENGTH - 2 →
      (genLoopAux e fuel i st).response.length ≤ MAX_RESPONSE_LENGTH - 2 := by
  induction fuel with
  | zero => intro i st h; simpa [genLoopAux] using h
  | succ n ih =>
    intro i st h
    simp only [genLoopAux]
    split
    · split
      · simpa using h
      · split
        · exact ih (i+1) _ (appendPiece_le e st.response i h)
        · simpa using appendPiece_le e st.response i h
    · exact h

theorem countDecode_append (l₁ l₂ : List EngineCall) :
    countDecode (l₁ ++ l₂) = countDecode l₁ + countDecode l₂ := by
  induction l₁ with
  | nil => simp [countDecode]
  | cons c cs ih =>
    cases c <;> simp [countDecode, ih] <;> omega

theorem countAccept_append (t : Int) (l₁ l₂ : List EngineCall) :
    countAccept t (l₁ ++ l₂) = countAccept t l₁ + countAccept t l₂ := by
  induction l₁ with
  | nil => simp [countAccept]
  | cons c cs ih =>
    cases c <;> simp [countAccept, ih] <;> omega

theorem countDecode_stepTrace (e : Engine) (i : Nat) :
    countDecode (stepTrace e i) = 1 := by
  simp [stepTrace, countDecode]

theorem genLoopAux_countDecode_le (e : Engine) (fuel : Nat) :
    ∀ i st, countDecode (genLoopAux e fuel i st).trace ≤ countDecode st.trace + fuel := by
  induction fuel with
  | zero => intro i st; simp [genLoopAux]
  | succ n ih =>
    intro i st
    simp only [genLoopAux]
    split
    · split
      · simp [countDecode_append, countDecode]
      · split
        · calc countDecode (genLoopAux e n (i+1)
                { response := appendPiece e st.response i
                  generated := st.generated + 1
                  trace := st.trace ++ stepTrace e i }).trace
              ≤ countDecode (st.trace ++ stepTrace e i) + n := ih (i+1) _
            _ ≤ countDecode st.trace + (n+1) := by
                simp only [countDecode_append, countDecode_stepTrace]
                omega
        · simp only
          simp [countDecode_append, countDecode_stepTrace]
    · omega

theorem genLoopAux_response_congr (e : Engine) (fuel : Nat) :
    ∀ i r g g' tr tr',
      (genLoopAux e fuel i ⟨r, g, tr⟩).response =
        (genLoopAux e fuel i ⟨r, g', tr'⟩).response := by
  induction fuel with
  | zero => intro i r g g' tr tr'; simp [genLoopAux]
  | succ n ih =>
    intro i r g g' tr tr'
    simp only [genLoopAux]
    by_cases h1 : r.length < MAX_RESPONSE_LENGTH - 256
    · simp only [h1, if_true]
      by_cases h2 : e.sample i = e.eos
      · simp [h2]
      · by_cases h3 : e.decodeTokOk i
        · simp only [h2, if_false, h3, if_true]
          exact ih (i+1) (appendPiece e r i) (g+1) (g'+1) _ _
        · simp [h2, h3]
    · simp [h1]

theorem appendPiece_decodeAllOk (e : Engine) (resp : List Nat) (i : Nat) :
    appendPiece (decodeAllOk e) resp i = appendPiece e resp i := rfl

theorem stepTrace_decodeAllOk (e : Engine) (i : Nat) :
    stepTrace (decodeAllOk e) i = stepTrace e i := rfl

theorem decodeAllOk_sample (e : Engine) : (decodeAllOk e).sample = e.sample := rfl

theorem decodeAllOk_eos (e : Engine) : (decodeAllOk e).eos = e.eos := rfl

theorem decodeAllOk_decodeTokOk (e : Engine) (i : Nat) :
    (decodeAllOk e).decodeTokOk i = true := rfl

theorem genLoopAux_zero (e : Engine) (i : Nat) (st : LoopState) :
    genLoopAux e 0 i st = st := rfl

theorem genLoopAux_succ (e : Engine) (fuel i : Nat) (st : LoopState) :
    genLoopAux e (fuel+1) i st =
      if st.response.length < MAX_RESPONSE_LENGTH - 256 then
        if e.sample i = e.eos then
          { st with trace := st.trace ++ [EngineCall.sampleEv] }
        else
          if e.decodeTokOk i then
            genLoopAux e fuel (i+1)
              { response := appendPiece e st.response i
                generated := st.generated + 1
                trace := st.trace ++ stepTrace e i }
          else
            { response := appendPiece e st.response i
              generated := st.generated
              trace := st.trace ++ stepTrace e i }
      else st := rfl

theorem genLoopAux_decode_fail (e : Engine) (k : Nat) :
    ∀ fuel i st, k < fuel →
      (∀ j, j < k → e.decodeTokOk (i + j) = true) →
      e.decodeTokOk (i + k) = false →
      (genLoopAux e fuel i st).response =
        (genLoopAux (decodeAllOk e) (k+1) i st).response := by
  induction k with
  | zero =>
    intro fuel i st hf hdec hdk
    obtain ⟨n, rfl⟩ : ∃ n, fuel = n + 1 := ⟨fuel - 1, by omega⟩
    have hd : e.decodeTokOk i = false := by simpa using hdk
    rw [genLoopAux_succ, genLoopAux_succ]
    by_cases h1 : st.response.length < MAX_RESPONSE_LENGTH - 256
    · rw [if_pos h1, if_pos h1, decodeAllOk_sample, decodeAllOk_eos]
      by_cases h2 : e.sample i = e.eos
      · rw [if_pos h2, if_pos h2]
      · rw [if_neg h2, if_neg h2, hd, decodeAllOk_decodeTokOk, if_neg (by simp),
          if_pos rfl, genLoopAux_zero, appendPiece_decodeAllOk]
    · rw [if_neg h1, if_neg h1]
  | succ k ih =>
    intro fuel i st hf hdec hdk
    obtain ⟨n, rfl⟩ : ∃ n, fuel = n + 1 := ⟨fuel - 1, by omega⟩
    have hd0 : e.decodeTokOk i = true := by
      have h := hdec 0 (Nat.succ_pos k); simpa using h
    rw [genLoopAux_succ, genLoopAux_succ]
    by_cases h1 : st.response.length < MAX_RESPONSE_LENGTH - 256
    · rw [if_pos h1, if_pos h1, decodeAllOk_sample, decodeAllOk_eos]
      by_cases h2 : e.sample i = e.eos
      · rw [if_pos h2, if_pos h2]
      · rw [if_neg h2, if_neg h2, hd0, decodeAllOk_decodeTokOk, if_pos rfl, if_pos rfl,
          appendPiece_decodeAllOk, stepTrace_decodeAllOk]
        exact ih n (i+1)
          ⟨appendPiece e st.response i, st.generated + 1, st.trace ++ stepTrace e i⟩
          (by omega)
          (fun j hj => by
            have h := hdec (j+1) (by omega)
            rw [show i + (j+1) = i + 1 + j by omega] at h
            exact h)
          (by rw [show i + 1 + k = i + (k+1) by omega]; exact hdk)
    · rw [if_neg h1, if_neg h1]

/-- Trace of engine calls made before the generation loop starts on the
success path: memory clear, tokenize, prompt-batch decode. -/
def preTrace : List EngineCall :=
  [EngineCall.memoryClearEv, EngineCall.tokenizeEv, EngineCall.decodeEv]

theorem generateText_run (e : Engine) (p : List Nat) (m : Int)
    (hutf : e.utfOk = true) (hp0 : p.length ≠ 0) (hp1 : p.length ≤ MAX_PROMPT_LENGTH)
    (ht0 : 0 ≤ e.tokenizeRes p) (ht1 : e.tokenizeRes p < (n_ctx : Int))
    (hpr : e.primeDecodeOk = true) (hal : e.allocOk = true) :
    generateText e (some freshSession) p m =
      ⟨Except.ok (genLoopAux e (sanitizeMaxTokens m).toNat 0 ⟨[], 0, preTrace⟩).response,
       (genLoopAux e (sanitizeMaxTokens m).toNat 0 ⟨[], 0, preTrace⟩).trace⟩ := by
  simp only [generateText, freshSession]
  rw [if_neg (by simp), if_neg (by simp [hutf]), if_neg (by omega),
      if_neg (by omega), if_neg (by omega), if_neg (by simp [hpr]),
      if_neg (by simp [hal])]
  rfl

theorem countAccept_eos_stepTrace (e : Engine) (i : Nat) (h : ¬ e.sample i = e.eos) :
    countAccept e.eos (stepTrace e i) = 0 := by
  simp [stepTrace, countAccept, h]

theorem genLoopAux_countAccept_eos (e : Engine) (fuel : Nat) :
    ∀ i st, countAccept e.eos (genLoopAux e fuel i st).trace =
      countAccept e.eos st.trace := by
  induction fuel with
  | zero => intro i st; rfl
  | succ n ih =>
    intro i st
    rw [genLoopAux_succ]
    by_cases h1 : st.response.length < MAX_RESPONSE_LENGTH - 256
    · by_cases h2 : e.sample i = e.eos
      · rw [if_pos h1, if_pos h2]
        simp [countAccept_append, countAccept]
      · by_cases h3 : e.decodeTokOk i
        · rw [if_pos h1, if_neg h2, if_pos h3, ih]
          simp [countAccept_append, countAccept_eos_stepTrace e i h2]
        · rw [if_pos h1, if_neg h2, if_neg h3]
          simp [countAccept_append, countAccept_eos_stepTrace e i h2]
    · rw [if_neg h1]

/-- An engine that never fails, never emits the end-of-sequence token, and
whose pieces are all empty: its generation loop always runs out the full
iteration budget. -/
def eagerEngine : Engine :=
  { utfOk := true, tokenizeRes := fun _ => 1, primeDecodeOk := true, allocOk := true,
    sample := fun _ => 0, eos := 1, piece := fun _ => [], decodeTokOk := fun _ => true }

theorem appendPiece_eagerEngine (resp : List Nat) (i : Nat) :
    appendPiece eagerEngine resp i = resp := by
  simp [appendPiece, tokenToPiece, eagerEngine]

theorem eager_countDecode (fuel : Nat) :
    ∀ i st, st.response = [] →
      countDecode (genLoopAux eagerEngine fuel i st).trace =
        countDecode st.trace + fuel := by
  induction fuel with
  | zero => intro i st h; rfl
  | succ n ih =>
    intro i st h
    rw [genLoopAux_succ]
    rw [if_pos (by simp [h, MAX_RESPONSE_LENGTH])]
    rw [if_neg (by simp [eagerEngine])]
    rw [if_pos (show eagerEngine.decodeTokOk i = true from rfl)]
    rw [ih (i+1) _ (by simp [appendPiece_eagerEngine, h])]
    simp [countDecode_append, countDecode_stepTrace]
    omega

/-! ### Concrete instances used by scenarios, witnesses and counterexamples -/

/-- Byte encoding of the prompt "Hello". -/
def helloPrompt : List Nat := [72, 101, 108, 108, 111]

/-- An engine whose every per-token decode call fails; it samples token 7
(piece "A", byte 65) and its end-of-sequence token is 3. -/
def failingDecodeEngine : Engine :=
  { utfOk := true, tokenizeRes := fun _ => 1, primeDecodeOk := true, allocOk := true,
    sample := fun _ => 7, eos := 3, piece := fun _ => [65], decodeTokOk := fun _ => false }

/-- An engine whose very first sampled token is the end-of-sequence token. -/
def eosFirstEngine : Engine :=
  { utfOk := true, tokenizeRes := fun _ => 1, primeDecodeOk := true, allocOk := true,
    sample := fun _ => 3, eos := 3, piece := fun _ => [65], decodeTokOk := fun _ => true }

/-- An environment in which every construction step of `loadModel` succeeds. -/
def envAllOk : LoadEnv := ⟨false, true, true, true, true, true⟩

/-! ### Claim theorems -/

/-- Claim C1, counterexample.  The claim states that when the per-token decode
step fails on iteration k, the returned text is that of iterations 0..k-1 with
no text contributed by iteration k.  With an engine whose decode fails already
on iteration 0 (k = 0) the claim predicts the empty text, but `generateText`
returns the byte 65 appended by iteration 0: the source appends the sampled
token's piece (lines 200-207 of `llama_jni_new.c`) before making the decode
call that fails (line 213), so iteration k does contribute its text. -/
theorem c1_counterexample :
    (generateText failingDecodeEngine (some freshSession) helloPrompt 5).result =
      Except.ok [65] ∧
    (generateText failingDecodeEngine (some freshSession) helloPrompt 5).result ≠
      Except.ok [] := by
  constructor
  · decide
  · decide

/-- Claim C1, amended: if the per-token decode step first fails on iteration k
(all earlier per-token decodes succeeding), `Generate` still returns
successfully — no error is surfaced — and the returned text is exactly the
text a failure-free run accumulates in iterations 0..k inclusive: iteration
k's piece is appended before its decode call, so iteration k does contribute
its text. -/
theorem c1_decode_fail_soft_stop : ∀ (e : Engine) (p : List Nat) (m : Int) (k : Nat),
    e.utfOk = true → p.length ≠ 0 → p.length ≤ MAX_PROMPT_LENGTH →
    0 ≤ e.tokenizeRes p → e.tokenizeRes p < (n_ctx : Int) →
    e.primeDecodeOk = true → e.allocOk = true →
    k < (sanitizeMaxTokens m).toNat →
    (∀ j, j < k → e.decodeTokOk j = true) →
    e.decodeTokOk k = false →
    (generateText e (some freshSession) p m).result =
      Except.ok (genLoop (decodeAllOk e) (k+1)).response := by
  intro e p m k hutf hp0 hp1 ht0 ht1 hpr hal hk hdec hdk
  have hX : (genLoopAux e (sanitizeMaxTokens m).toNat 0 ⟨[], 0, preTrace⟩).response
      = (genLoop (decodeAllOk e) (k+1)).response := by
    rw [genLoopAux_decode_fail e k ((sanitizeMaxTokens m).toNat) 0 ⟨[], 0, preTrace⟩ hk
        (fun j hj => by simpa using hdec j hj) (by simpa using hdk)]
    rw [genLoop]
    exact genLoopAux_response_congr (decodeAllOk e) (k+1) 0 [] 0 0 preTrace []
  rw [generateText_run e p m hutf hp0 hp1 ht0 ht1 hpr hal]
  dsimp only
  rw [hX]

/-- Witness for the amended claim C1 at a concrete input: decode fails on
iteration 0, so the result equals the failure-free run bounded to 1
iteration. -/
theorem c1_decode_fail_soft_stop_witness :
    (generateText failingDecodeEngine (some freshSession) helloPrompt 5).result =
      Except.ok (genLoop (decodeAllOk failingDecodeEngine) (0+1)).response :=
  c1_decode_fail_soft_stop failingDecodeEngine helloPrompt 5 0 rfl (by decide) (by decide)
    (by decide) (by decide) rfl rfl (by decide)
    (fun j hj => absurd hj (Nat.not_lt_zero j)) rfl

/-- Claim C2: the accumulated output buffer never exceeds its fixed capacity
of MAX_RESPONSE_LENGTH (8192) units.  First conjunct: at most 256 units of a
single token's piece ever leave the conversion buffer (the piece is produced
into a 256-unit buffer).  Second conjunct: whenever `generateText` returns a
response, its length plus the null terminator stays within
MAX_RESPONSE_LENGTH, because the loop only continues while the write position
is more than 256 units below capacity and a piece is appended only when it
fits below MAX_RESPONSE_LENGTH - 1. -/
theorem c2_response_capacity :
    (∀ (e : Engine) (t : Int), ((tokenToPiece e t).2).length ≤ 256) ∧
    (∀ (e : Engine) (h : Option Session) (p : List Nat) (m : Int) (resp : List Nat),
      (generateText e h p m).result = Except.ok resp →
      resp.length + 1 ≤ MAX_RESPONSE_LENGTH) := by
  constructor
  · exact tokenToPiece_snd_le
  · intro e h p m resp hok
    cases h with
    | none => simp [generateText] at hok
    | some s =>
      simp only [generateText] at hok
      split at hok
      · simp at hok
      · split at hok
        · simp at hok
        · split at hok
          · simp at hok
          · split at hok
            · simp at hok
            · split at hok
              · simp at hok
              · split at hok
                · simp at hok
                · split at hok
                  · simp at hok
                  · simp only [Except.ok.injEq] at hok
                    subst hok
                    have hb := genLoopAux_resp_le e (sanitizeMaxTokens m).toNat 0
                      ⟨[], 0, [EngineCall.memoryClearEv, EngineCall.tokenizeEv,
                               EngineCall.decodeEv]⟩ (by simp [MAX_RESPONSE_LENGTH])
                    unfold MAX_RESPONSE_LENGTH at hb ⊢
                    omega

/-- Witness for claim C2 at a concrete input: a successful run returning the
empty response respects the capacity bound. -/
theorem c2_response_capacity_witness :
    (1 : Nat) ≤ MAX_RESPONSE_LENGTH :=
  c2_response_capacity.2 eosFirstEngine (some freshSession) helloPrompt 5 [] (by decide)

/-- Claim C3: a `maxTokens` value that is zero, negative, or greater than
DEFAULT_MAX_TOKENS (512) is silently clamped to 512, a value in [1,512] is
kept exactly, the generation loop run with the sanitized bound performs at
most that many per-token decode iterations, and an engine that never stops
early reaches the bound exactly — so the sanitized value is honored exactly
as the iteration bound. -/
theorem c3_maxTokens_clamp : ∀ m : Int,
    ((m ≤ 0 ∨ (DEFAULT_MAX_TOKENS : Int) < m) →
      sanitizeMaxTokens m = (DEFAULT_MAX_TOKENS : Int)) ∧
    (0 < m → m ≤ (DEFAULT_MAX_TOKENS : Int) → sanitizeMaxTokens m = m) ∧
    (∀ e : Engine,
      countDecode (genLoop e (sanitizeMaxTokens m).toNat).trace ≤
        (sanitizeMaxTokens m).toNat) ∧
    countDecode (genLoop eagerEngine (sanitizeMaxTokens m).toNat).trace =
      (sanitizeMaxTokens m).toNat := by
  intro m
  refine ⟨?_, ?_, ?_, ?_⟩
  · intro h
    unfold sanitizeMaxTokens
    rw [if_neg (by push_neg; omega)]
  · intro h1 h2
    unfold sanitizeMaxTokens
    rw [if_pos ⟨h1, h2⟩]
  · intro e
    have hb := genLoopAux_countDecode_le e (sanitizeMaxTokens m).toNat 0 ⟨[], 0, []⟩
    simpa [genLoop, countDecode] using hb
  · have hb := eager_countDecode (sanitizeMaxTokens m).toNat 0 ⟨[], 0, []⟩ rfl
    simpa [genLoop, countDecode] using hb

/-- Witness for claim C3 at concrete inputs: -3 and 600 are clamped to 512,
and 7 is kept exactly. -/
theorem c3_maxTokens_clamp_witness :
    sanitizeMaxTokens (-3) = (DEFAULT_MAX_TOKENS : Int) ∧
    sanitizeMaxTokens 7 = 7 ∧
    sanitizeMaxTokens 600 = (DEFAULT_MAX_TOKENS : Int) :=
  ⟨(c3_maxTokens_clamp (-3)).1 (Or.inl (by decide)),
   (c3_maxTokens_clamp 7).2.1 (by decide) (by decide),
   (c3_maxTokens_clamp 600).1 (Or.inr (by decide))⟩

/-- Claim C10: the end-of-sequence token is never accepted into the sampler
chain's state — in any run of the generation loop, no
`llama_sampler_accept` call on the end-of-sequence token is ever recorded,
because the loop breaks after sampling it and before the accept call. -/
theorem c10_eos_never_accepted :
    ∀ (e : Engine) (maxGen : Nat), countAccept e.eos (genLoop e maxGen).trace = 0 := by
  intro e maxGen
  have hb := genLoopAux_countAccept_eos e maxGen 0 ⟨[], 0, []⟩
  simpa [genLoop, countAccept] using hb

/-- Claim C4: whenever `loadModel` fails, every previously-acquired resource
has been released before the error is reported (each acquisition event in the
trace is matched by a release event, so no partial session leaks), and in
particular a failure to load the model file — the unreadable-path scenario —
reports a RuntimeException with the backend returned to its pre-call state
(the only events are its initialization and its release). -/
theorem c4_create_failure_unwinds :
    (∀ (env : LoadEnv) (err : JavaError),
      (loadModel env).1 = Except.error err → balancedTrace (loadModel env).2) ∧
    (∀ env : LoadEnv, env.pathNull = false → env.utfOk = true → env.modelOk = false →
      (loadModel env).1 = Except.error (JavaError.runtimeException "Failed to load model") ∧
      (loadModel env).2 = [ResEvent.backendInit, ResEvent.backendFree]) := by
  constructor
  · intro env err h
    rcases env with ⟨p, u, mo, c, sa, ma⟩
    cases p <;> cases u <;> cases mo <;> cases c <;> cases sa <;> cases ma <;>
      first
        | decide
        | simp [loadModel] at h
  · intro env hp hu hm
    rcases env with ⟨p, u, mo, c, sa, ma⟩
    cases p <;> cases u <;> cases mo <;> cases c <;> cases sa <;> cases ma <;>
      first
        | decide
        | simp_all

/-- Witness for claim C4 at concrete environments: a context-creation failure
leaves a balanced trace, and an unreadable model path yields the
RuntimeException with only backend init and free performed. -/
theorem c4_create_failure_unwinds_witness :
    balancedTrace (loadModel ⟨false, true, true, false, true, true⟩).2 ∧
    ((loadModel ⟨false, true, false, true, true, true⟩).1 =
       Except.error (JavaError.runtimeException "Failed to load model") ∧
     (loadModel ⟨false, true, false, true, true, true⟩).2 =
       [ResEvent.backendInit, ResEvent.backendFree]) :=
  ⟨c4_create_failure_unwinds.1 ⟨false, true, true, false, true, true⟩
     (JavaError.runtimeException "Failed to create context") rfl,
   c4_create_failure_unwinds.2 ⟨false, true, false, true, true, true⟩ rfl rfl rfl⟩

/-- Claim C5: sampling the end-of-sequence token on an iteration terminates
the loop immediately — the state is unchanged apart from recording the sample
call, so that token's text is not appended, it is not accepted, and no
further decode call is issued — and in the scenario of prompt "Hello" with
maxTokens 5 against an engine whose first sample is the end-of-sequence
token, the result is the empty string and exactly one decode call (the
priming batch) occurs. -/
theorem c5_eos_terminates :
    (∀ (e : Engine) (fuel i : Nat) (st : LoopState),
      st.response.length < MAX_RESPONSE_LENGTH - 256 → e.sample i = e.eos →
      genLoopAux e (fuel+1) i st = { st with trace := st.trace ++ [EngineCall.sampleEv] }) ∧
    ((generateText eosFirstEngine (some freshSession) helloPrompt 5).result =
       Except.ok [] ∧
     countDecode (generateText eosFirstEngine (some freshSession) helloPrompt 5).trace = 1) := by
  refine ⟨?_, by decide, by decide⟩
  intro e fuel i st h1 h2
  rw [genLoopAux_succ, if_pos h1, if_pos h2]

/-- Witness for claim C5 at a concrete input: one step of the loop from the
empty state with an end-of-sequence sample only records the sample call. -/
theorem c5_eos_terminates_witness :
    genLoopAux eosFirstEngine (0+1) 0 ⟨[], 0, []⟩ =
      { (⟨[], 0, []⟩ : LoopState) with
        trace := ([] : List EngineCall) ++ [EngineCall.sampleEv] } :=
  c5_eos_terminates.1 eosFirstEngine 0 0 ⟨[], 0, []⟩ (by decide) rfl

/-- Claim C6: on a fully-initialized session, a prompt of length 0 or longer
than MAX_PROMPT_LENGTH (4096) code units makes `generateText` fail with the
IllegalArgumentException "Invalid prompt length" and the engine is never
invoked — the call trace is empty. -/
theorem c6_prompt_length_guard :
    ∀ (e : Engine) (s : Session) (p : List Nat) (m : Int),
      s.model = true → s.ctx = true → s.sampler = true → e.utfOk = true →
      (p.length = 0 ∨ MAX_PROMPT_LENGTH < p.length) →
      generateText e (some s) p m =
        ⟨Except.error (JavaError.illegalArgument "Invalid prompt length"), []⟩ := by
  intro e s p m hm hc hs hutf hp
  simp only [generateText]
  rw [if_neg (by simp [hm, hc, hs]), if_neg (by simp [hutf]), if_pos hp]

/-- Witness for claim C6 at a concrete input: the empty prompt is rejected
with no engine call. -/
theorem c6_prompt_length_guard_witness :
    generateText eosFirstEngine (some freshSession) [] 5 =
      ⟨Except.error (JavaError.illegalArgument "Invalid prompt length"), []⟩ :=
  c6_prompt_length_guard eosFirstEngine freshSession [] 5 rfl rfl rfl rfl (Or.inl rfl)

/-- An engine whose tokenizer reports a negative token count. -/
def negTokEngine : Engine :=
  { utfOk := true, tokenizeRes := fun _ => -1, primeDecodeOk := true, allocOk := true,
    sample := fun _ => 0, eos := 1, piece := fun _ => [], decodeTokOk := fun _ => true }

/-- An engine whose tokenizer reports a token count equal to the context
window size. -/
def bigTokEngine : Engine :=
  { utfOk := true, tokenizeRes := fun _ => 2048, primeDecodeOk := true, allocOk := true,
    sample := fun _ => 0, eos := 1, piece := fun _ => [], decodeTokOk := fun _ => true }

/-- Claim C7: during the tokenize step of `generateText`, a negative token
count fails with the RuntimeException "Failed to tokenize prompt" and a token
count of at least the context window size n_ctx (2048) fails with the
IllegalArgumentException "Prompt too long for context"; in both cases the
trace holds only the memory-clear and tokenize calls, so no decode call is
made. -/
theorem c7_tokenize_guards :
    ∀ (e : Engine) (p : List Nat) (m : Int),
      e.utfOk = true → p.length ≠ 0 → p.length ≤ MAX_PROMPT_LENGTH →
      ((e.tokenizeRes p < 0 →
        generateText e (some freshSession) p m =
          ⟨Except.error (JavaError.runtimeException "Failed to tokenize prompt"),
           [EngineCall.memoryClearEv, EngineCall.tokenizeEv]⟩ ∧
        countDecode (generateText e (some freshSession) p m).trace = 0) ∧
       ((n_ctx : Int) ≤ e.tokenizeRes p →
        generateText e (some freshSession) p m =
          ⟨Except.error (JavaError.illegalArgument "Prompt too long for context"),
           [EngineCall.memoryClearEv, EngineCall.tokenizeEv]⟩ ∧
        countDecode (generateText e (some freshSession) p m).trace = 0)) := by
  intro e p m hutf hp0 hp1
  constructor
  · intro ht
    have heq : generateText e (some freshSession) p m =
        ⟨Except.error (JavaError.runtimeException "Failed to tokenize prompt"),
         [EngineCall.memoryClearEv, EngineCall.tokenizeEv]⟩ := by
      simp only [generateText, freshSession]
      rw [if_neg (by simp), if_neg (by simp [hutf]), if_neg (by omega), if_pos ht]
    exact ⟨heq, by rw [heq]; rfl⟩
  · intro ht
    have heq : generateText e (some freshSession) p m =
        ⟨Except.error (JavaError.illegalArgument "Prompt too long for context"),
         [EngineCall.memoryClearEv, EngineCall.tokenizeEv]⟩ := by
      simp only [generateText, freshSession]
      rw [if_neg (by simp), if_neg (by simp [hutf]), if_neg (by omega),
          if_neg (by omega), if_pos ht]
    exact ⟨heq, by rw [heq]; rfl⟩

/-- Witness for claim C7 at concrete inputs: a tokenizer reporting -1 yields
the tokenization failure and a tokenizer reporting 2048 yields the
prompt-too-long failure, each without a decode call. -/
theorem c7_tokenize_guards_witness :
    generateText negTokEngine (some freshSession) helloPrompt 5 =
      ⟨Except.error (JavaError.runtimeException "Failed to tokenize prompt"),
       [EngineCall.memoryClearEv, EngineCall.tokenizeEv]⟩ ∧
    generateText bigTokEngine (some freshSession) helloPrompt 5 =
      ⟨Except.error (JavaError.illegalArgument "Prompt too long for context"),
       [EngineCall.memoryClearEv, EngineCall.tokenizeEv]⟩ :=
  ⟨((c7_tokenize_guards negTokEngine helloPrompt 5 rfl (by decide) (by decide)).1
      (by decide)).1,
   ((c7_tokenize_guards bigTokEngine helloPrompt 5 rfl (by decide) (by decide)).2
      (by decide)).1⟩

/-- Claim C8: `unloadModel` on a zero handle is a no-op, a second release
after a release frees nothing (idempotence under the released-handle
convention), and on a non-null session the sampler, context and model frees
happen in that reverse-construction order followed by the backend shutdown,
each sub-resource null-checked independently (its free occurs exactly when
the sub-resource is present). -/
theorem c8_release_order_idempotent :
    unloadModel none = [] ∧
    (∀ h : Option Session, (releaseHandle (releaseHandle h).1).2 = []) ∧
    (∀ s : Session,
      List.Sublist (unloadModel (some s))
        [ResEvent.samplerFree, ResEvent.ctxFree, ResEvent.modelFree, ResEvent.backendFree] ∧
      (ResEvent.samplerFree ∈ unloadModel (some s) ↔ s.sampler = true) ∧
      (ResEvent.ctxFree ∈ unloadModel (some s) ↔ s.ctx = true) ∧
      (ResEvent.modelFree ∈ unloadModel (some s) ↔ s.model = true) ∧
      ResEvent.backendFree ∈ unloadModel (some s)) := by
  refine ⟨rfl, ?_, ?_⟩
  · intro h
    rfl
  · intro s
    rcases s with ⟨mo, c, sa⟩
    cases mo <;> cases c <;> cases sa <;> exact ⟨by decide, by decide, by decide, by decide, by decide⟩

/-- Claim C9: every session a successful `loadModel` returns has all three
sub-resources populated, so the IllegalStateException branch of
`generateText` is unreachable for a handle freshly returned by `loadModel`:
no call on such a session ever produces an IllegalStateException. -/
theorem c9_fresh_session_valid :
    ∀ (env : LoadEnv) (s : Session) (tr : List ResEvent),
      loadModel env = (Except.ok s, tr) →
      s = freshSession ∧
      ∀ (e : Engine) (p : List Nat) (m : Int),
        isIllegalState (generateText e (some s) p m).result = false := by
  intro env s tr h
  have hs : s = freshSession := by
    unfold loadModel at h
    split_ifs at h <;> simp_all [freshSession]
  subst hs
  refine ⟨rfl, ?_⟩
  intro e p m
  simp only [generateText, freshSession]
  split_ifs <;> first | rfl | simp_all

/-- Witness for claim C9 at a concrete input: on the session returned by a
fully-successful `loadModel`, a concrete `generateText` call does not raise
IllegalStateException. -/
theorem c9_fresh_session_valid_witness :
    isIllegalState (generateText eagerEngine (some freshSession) helloPrompt 5).result = false :=
  (c9_fresh_session_valid envAllOk freshSession
    [ResEvent.backendInit, ResEvent.modelLoad, ResEvent.ctxNew, ResEvent.samplerNew] rfl).2
    eagerEngine helloPrompt 5
